import Mathlib

/-!
Verification of the Fundsly bonding-curve analysis scripts
(src/scripts/bonding_curve_simulator.py and src/scripts/market_cap_analyzer.py).

The scripts implement a constant-product bonding curve over Python floats.
We embed the arithmetic over the rationals, which is the exact mathematics
the formulas denote; Python raises ZeroDivisionError exactly when a divisor
is zero, so each fallible computation is embedded as an Option-valued
function that returns none precisely when some divisor in the source is
zero.
-/

namespace Fundsly

/-- Embedding of calculate_buy_cost (bonding_curve_simulator.py lines 42-47,
identical copy in market_cap_analyzer.py lines 13-18):
k = virtual_sol * (virtual_tokens + real_tokens);
remaining = real_tokens - buy_amount;
new_sol = k / (virtual_tokens + remaining);  -- raises iff the divisor is 0
returns new_sol - virtual_sol. -/
def calculate_buy_cost (virtual_sol virtual_tokens real_tokens buy_amount : ℚ) :
    Option ℚ :=
  let k := virtual_sol * (virtual_tokens + real_tokens)
  let remaining := real_tokens - buy_amount
  if virtual_tokens + remaining = 0 then none
  else
    let new_sol := k / (virtual_tokens + remaining)
    some (new_sol - virtual_sol)

/-- Embedding of calculate_virtual_tokens (market_cap_analyzer.py lines 7-11):
initial_price = market_cap_sol / total_supply;  -- raises iff total_supply = 0
virtual_tokens = (virtual_sol / initial_price) - total_supply;
  -- raises iff initial_price = 0
returns max(0, virtual_tokens). -/
def calculate_virtual_tokens (market_cap_sol virtual_sol total_supply : ℚ) :
    Option ℚ :=
  if total_supply = 0 then none
  else
    let initial_price := market_cap_sol / total_supply
    if initial_price = 0 then none
    else some (max 0 (virtual_sol / initial_price - total_supply))

/-- Embedding of one iteration of the loop body of calculate_price_curve
(bonding_curve_simulator.py lines 27-38) at a given tokens_to_buy:
k = virtual_sol * (virtual_tokens + real_tokens);
remaining_tokens = real_tokens - tokens_to_buy;
new_total_sol = k / (virtual_tokens + remaining_tokens);
sol_needed = new_total_sol - virtual_sol;
current_price = (virtual_sol + sol_needed) / (virtual_tokens + remaining_tokens);
yields (current_price, tokens_to_buy / 1_000_000, sol_needed), the values the
loop appends to its three result lists. -/
def curve_point (virtual_sol virtual_tokens real_tokens tokens_to_buy : ℚ) :
    Option (ℚ × ℚ × ℚ) :=
  let k := virtual_sol * (virtual_tokens + real_tokens)
  let remaining_tokens := real_tokens - tokens_to_buy
  if virtual_tokens + remaining_tokens = 0 then none
  else
    let new_total_sol := k / (virtual_tokens + remaining_tokens)
    let sol_needed := new_total_sol - virtual_sol
    let current_price := (virtual_sol + sol_needed) / (virtual_tokens + remaining_tokens)
    some (current_price, tokens_to_buy / 1000000, sol_needed)

/-- Embedding of calculate_price_curve (bonding_curve_simulator.py lines 14-40):
increment = real_tokens / num_points (raises iff num_points = 0);
for i in range(num_points), evaluates the loop body at
tokens_to_buy = increment * (i + 1); returns the lists
(tokens_bought, prices, sol_spent). -/
def calculate_price_curve (virtual_sol virtual_tokens real_tokens : ℚ)
    (num_points : ℕ) : Option (List ℚ × List ℚ × List ℚ) :=
  if num_points = 0 then none
  else
    let increment := real_tokens / (num_points : ℚ)
    do
      let pts ← (List.range num_points).mapM
        (fun i => curve_point virtual_sol virtual_tokens real_tokens
          (increment * ((i : ℚ) + 1)))
      return (pts.map (fun p => p.2.1), pts.map (fun p => p.1),
        pts.map (fun p => p.2.2))

/-- Embedding of one iteration of the per-buyer loop body of
simulate_trading_scenario (bonding_curve_simulator.py lines 167-180).
The state is (remaining, total_sol); for a buyer spending sol_amount:
k = (vsol + total_sol) * (vtok + remaining);
new_sol = vsol + total_sol + sol_amount;
new_tokens = k / new_sol;  -- raises iff new_sol = 0
tokens_bought = (vtok + remaining) - new_tokens;
then remaining -= tokens_bought and total_sol += sol_amount. -/
def trade_step (vsol vtok : ℚ) (st : ℚ × ℚ) (sol_amount : ℚ) : Option (ℚ × ℚ) :=
  let remaining := st.1
  let total_sol := st.2
  let k := (vsol + total_sol) * (vtok + remaining)
  let new_sol := vsol + total_sol + sol_amount
  if new_sol = 0 then none
  else
    let new_tokens := k / new_sol
    let tokens_bought := (vtok + remaining) - new_tokens
    some (remaining - tokens_bought, total_sol + sol_amount)

/-- Embedding of the whole buyer loop of simulate_trading_scenario
(bonding_curve_simulator.py lines 164-180): starting from
remaining = supply, total_sol = 0, applies trade_step for each buyer budget
in order. -/
def runTrades (vsol vtok supply : ℚ) (amounts : List ℚ) : Option (ℚ × ℚ) :=
  amounts.foldlM (trade_step vsol vtok) (supply, 0)

/-- Embedding of the per-budget computation of whale_attack_analysis
(bonding_curve_simulator.py lines 206-209):
k = vsol * (vtok + supply);
new_sol = vsol + budget;
new_tokens = k / new_sol;  -- raises iff new_sol = 0
tokens_bought = (vtok + supply) - new_tokens. -/
def whale_tokens_bought (vsol vtok supply budget : ℚ) : Option ℚ :=
  let k := vsol * (vtok + supply)
  let new_sol := vsol + budget
  if new_sol = 0 then none
  else
    let new_tokens := k / new_sol
    some ((vtok + supply) - new_tokens)

/-- Helper: calculate_buy_cost succeeds, with the closed-form value, whenever
its divisor is nonzero. -/
lemma buy_cost_some (virtual_sol virtual_tokens real_tokens buy_amount : ℚ)
    (h : virtual_tokens + (real_tokens - buy_amount) ≠ 0) :
    calculate_buy_cost virtual_sol virtual_tokens real_tokens buy_amount =
      some (virtual_sol * (virtual_tokens + real_tokens) /
        (virtual_tokens + (real_tokens - buy_amount)) - virtual_sol) := by
  simp only [calculate_buy_cost, if_neg h]

/-- Helper: calculate_buy_cost raises exactly when its divisor is zero. -/
lemma buy_cost_none_iff (virtual_sol virtual_tokens real_tokens buy_amount : ℚ) :
    calculate_buy_cost virtual_sol virtual_tokens real_tokens buy_amount = none ↔
      virtual_tokens + (real_tokens - buy_amount) = 0 := by
  simp only [calculate_buy_cost]
  split <;> simp_all

/-- C1: for positive curve parameters and 0 ≤ tokensToBuy < supply,
calculate_buy_cost returns k / (virtual_tokens + (supply - tokensToBuy)) -
virtual_sol, where k = virtual_sol * (virtual_tokens + supply). -/
theorem buy_cost_closed_form (virtual_sol virtual_tokens supply buy_amount : ℚ)
    (hvs : 0 < virtual_sol) (hvt : 0 < virtual_tokens) (hs : 0 < supply)
    (hb0 : 0 ≤ buy_amount) (hbs : buy_amount < supply) :
    calculate_buy_cost virtual_sol virtual_tokens supply buy_amount =
      some (virtual_sol * (virtual_tokens + supply) /
        (virtual_tokens + (supply - buy_amount)) - virtual_sol) := by
  have hd : 0 < virtual_tokens + (supply - buy_amount) := by linarith
  exact buy_cost_some _ _ _ _ hd.ne'

/-- Witness for C1 at virtual_sol = 30, virtual_tokens = 10^9,
supply = 10^9, buy = 10^8. -/
theorem buy_cost_closed_form_witness :
    calculate_buy_cost 30 1000000000 1000000000 100000000 =
      some (30 * (1000000000 + 1000000000) /
        (1000000000 + (1000000000 - 100000000)) - 30) :=
  buy_cost_closed_form 30 1000000000 1000000000 100000000
    (by norm_num) (by norm_num) (by norm_num) (by norm_num) (by norm_num)

/-- C7: for positive curve parameters, buying zero tokens costs zero. -/
theorem buy_cost_zero (virtual_sol virtual_tokens supply : ℚ)
    (hvs : 0 < virtual_sol) (hvt : 0 < virtual_tokens) (hs : 0 < supply) :
    calculate_buy_cost virtual_sol virtual_tokens supply 0 = some 0 := by
  have hd : 0 < virtual_tokens + (supply - 0) := by linarith
  rw [buy_cost_some _ _ _ _ hd.ne']
  congr 1
  rw [sub_zero] at hd ⊢
  rw [mul_div_assoc, div_self hd.ne', mul_one, sub_self]

/-- Witness for C7 at virtual_sol = 30, virtual_tokens = 10^9, supply = 10^9. -/
theorem buy_cost_zero_witness :
    calculate_buy_cost 30 1000000000 1000000000 0 = some 0 :=
  buy_cost_zero 30 1000000000 1000000000 (by norm_num) (by norm_num) (by norm_num)

/-- C2: for fixed positive curve parameters, calculate_buy_cost is strictly
increasing in the amount bought: buying strictly more (still below the
supply) costs strictly more. -/
theorem buy_cost_strictMono (virtual_sol virtual_tokens supply a b : ℚ)
    (hvs : 0 < virtual_sol) (hvt : 0 < virtual_tokens) (hs : 0 < supply)
    (ha0 : 0 ≤ a) (hab : a < b) (hbs : b < supply) :
    ∃ ca cb, calculate_buy_cost virtual_sol virtual_tokens supply a = some ca ∧
      calculate_buy_cost virtual_sol virtual_tokens supply b = some cb ∧
      ca < cb := by
  have hda : 0 < virtual_tokens + (supply - a) := by linarith
  have hdb : 0 < virtual_tokens + (supply - b) := by linarith
  refine ⟨_, _, buy_cost_some _ _ _ _ hda.ne', buy_cost_some _ _ _ _ hdb.ne', ?_⟩
  have hk : 0 < virtual_sol * (virtual_tokens + supply) := by positivity
  have hlt : virtual_tokens + (supply - b) < virtual_tokens + (supply - a) := by
    linarith
  exact sub_lt_sub_right (div_lt_div_of_pos_left hk hdb hlt) _

/-- Witness for C2 at virtual_sol = 30, virtual_tokens = 10^9,
supply = 10^9, a = 10^8, b = 2 * 10^8. -/
theorem buy_cost_strictMono_witness :
    ∃ ca cb, calculate_buy_cost 30 1000000000 1000000000 100000000 = some ca ∧
      calculate_buy_cost 30 1000000000 1000000000 200000000 = some cb ∧
      ca < cb :=
  buy_cost_strictMono 30 1000000000 1000000000 100000000 200000000
    (by norm_num) (by norm_num) (by norm_num) (by norm_num) (by norm_num)
    (by norm_num)

/-- C4, counterexample: the claim says calculate_buy_cost fails by division by
zero at tokensToBuy = supply, but at virtual_sol = 30,
virtual_tokens = supply = 10^9 and tokensToBuy = 10^9 the divisor is
virtual_tokens = 10^9 and the call returns 30 SOL rather than raising. -/
theorem buy_cost_full_supply_counterexample :
    calculate_buy_cost 30 1000000000 1000000000 1000000000 ≠ none ∧
      calculate_buy_cost 30 1000000000 1000000000 1000000000 = some 30 := by
  rw [buy_cost_some 30 1000000000 1000000000 1000000000 (by norm_num)]
  refine ⟨Option.some_ne_none _, ?_⟩
  norm_num

/-- C4 as amended: the division in calculate_buy_cost is a division by zero
exactly when tokensToBuy = supply + virtual_tokens; at
tokensToBuy = supply the divisor is virtual_tokens, and when that is
nonzero the call returns virtual_sol * supply / virtual_tokens. -/
theorem buy_cost_failure_iff (virtual_sol virtual_tokens supply buy_amount : ℚ) :
    (calculate_buy_cost virtual_sol virtual_tokens supply buy_amount = none ↔
      buy_amount = supply + virtual_tokens) ∧
    (virtual_tokens ≠ 0 →
      calculate_buy_cost virtual_sol virtual_tokens supply supply =
        some (virtual_sol * supply / virtual_tokens)) := by
  constructor
  · rw [buy_cost_none_iff]
    constructor <;> intro h <;> linarith
  · intro hvt
    rw [buy_cost_some _ _ _ _ (by simpa using hvt)]
    congr 1
    field_simp
    ring

/-- Witness for C4 as amended, at virtual_sol = 30,
virtual_tokens = supply = 10^9, tokensToBuy = supply. -/
theorem buy_cost_failure_iff_witness :
    calculate_buy_cost 30 1000000000 1000000000 1000000000 =
      some (30 * 1000000000 / 1000000000) :=
  (buy_cost_failure_iff 30 1000000000 1000000000 1000000000).2 (by norm_num)

/-- C5: for positive inputs, calculate_virtual_tokens returns
max(0, virtual_sol * supply / targetMarketCapSol - supply), and the result
is nonnegative. -/
theorem virtual_tokens_closed_form (market_cap_sol virtual_sol total_supply : ℚ)
    (hmc : 0 < market_cap_sol) (hvs : 0 < virtual_sol) (hs : 0 < total_supply) :
    calculate_virtual_tokens market_cap_sol virtual_sol total_supply =
      some (max 0 (virtual_sol * total_supply / market_cap_sol - total_supply)) ∧
    ∀ v, calculate_virtual_tokens market_cap_sol virtual_sol total_supply =
      some v → 0 ≤ v := by
  have hmain : calculate_virtual_tokens market_cap_sol virtual_sol total_supply =
      some (max 0 (virtual_sol * total_supply / market_cap_sol - total_supply)) := by
    have hip : market_cap_sol / total_supply ≠ 0 :=
      (div_pos hmc hs).ne'
    simp only [calculate_virtual_tokens, if_neg hs.ne', if_neg hip]
    rw [div_div_eq_mul_div]
  refine ⟨hmain, fun v hv => ?_⟩
  rw [hmain] at hv
  obtain rfl := Option.some.inj hv
  exact le_max_left _ _

/-- Witness for C5 at targetMarketCapSol = 23, virtual_sol = 200,
supply = 10^9. -/
theorem virtual_tokens_closed_form_witness :
    calculate_virtual_tokens 23 200 1000000000 =
      some (max 0 (200 * 1000000000 / 23 - 1000000000)) ∧
    ∀ v, calculate_virtual_tokens 23 200 1000000000 = some v → 0 ≤ v :=
  virtual_tokens_closed_form 23 200 1000000000 (by norm_num) (by norm_num)
    (by norm_num)

/-- C6, counterexample: at virtual_sol = 30, virtual_tokens = supply = 10^9,
buy = 10^8, the code returns exactly 30/19 ≈ 1.579 SOL, which differs from
the claimed 1.666… (= 5/3) by more than 0.08. -/
theorem example_cost_counterexample :
    calculate_buy_cost 30 1000000000 1000000000 100000000 = some (30 / 19) ∧
      (30 / 19 : ℚ) ≠ 5 / 3 ∧ 5 / 3 - (30 / 19 : ℚ) > 2 / 25 := by
  refine ⟨?_, by norm_num, by norm_num⟩
  rw [buy_cost_some 30 1000000000 1000000000 100000000 (by norm_num)]
  norm_num

/-- C6 as amended: at virtual_sol = 30, virtual_tokens = supply = 10^9,
buy = 10^8, calculate_buy_cost returns exactly 30/19 ≈ 1.579 SOL, which is
the value of the claimed formula k / (virtual_tokens + 9 * 10^8) - 30 with
k = 30 * (10^9 + 10^9). -/
theorem example_cost_value :
    calculate_buy_cost 30 1000000000 1000000000 100000000 = some (30 / 19) ∧
      (30 / 19 : ℚ) =
        30 * (1000000000 + 1000000000) / (1000000000 + 900000000) - 30 := by
  refine ⟨?_, by norm_num⟩
  rw [buy_cost_some 30 1000000000 1000000000 100000000 (by norm_num)]
  norm_num

/-- Helper: the value of the curve-point computation when its divisor is
nonzero. -/
lemma curve_point_some (virtual_sol virtual_tokens real_tokens tokens_to_buy : ℚ)
    (h : virtual_tokens + (real_tokens - tokens_to_buy) ≠ 0) :
    curve_point virtual_sol virtual_tokens real_tokens tokens_to_buy =
      some ((virtual_sol + (virtual_sol * (virtual_tokens + real_tokens) /
          (virtual_tokens + (real_tokens - tokens_to_buy)) - virtual_sol)) /
          (virtual_tokens + (real_tokens - tokens_to_buy)),
        tokens_to_buy / 1000000,
        virtual_sol * (virtual_tokens + real_tokens) /
          (virtual_tokens + (real_tokens - tokens_to_buy)) - virtual_sol) := by
  simp only [curve_point, if_neg h]

/-- C8: for positive curve parameters and 0 ≤ tokensSold < supply, the spot
price computed in calculate_price_curve equals
(virtual_sol + solSpent) / (virtual_tokens + remaining), where
remaining = supply - tokensSold and solSpent is the value of
calculate_buy_cost at tokensSold. -/
theorem curve_price_eq_spot_formula (virtual_sol virtual_tokens supply tokens_sold : ℚ)
    (hvs : 0 < virtual_sol) (hvt : 0 < virtual_tokens) (hs : 0 < supply)
    (ht0 : 0 ≤ tokens_sold) (hts : tokens_sold < supply) :
    ∃ c pt, calculate_buy_cost virtual_sol virtual_tokens supply tokens_sold =
        some c ∧
      curve_point virtual_sol virtual_tokens supply tokens_sold = some pt ∧
      pt.1 = (virtual_sol + c) / (virtual_tokens + (supply - tokens_sold)) := by
  have hd : 0 < virtual_tokens + (supply - tokens_sold) := by linarith
  exact ⟨_, _, buy_cost_some _ _ _ _ hd.ne', curve_point_some _ _ _ _ hd.ne', rfl⟩

/-- Witness for C8 at virtual_sol = 30, virtual_tokens = supply = 10^9,
tokensSold = 10^8. -/
theorem curve_price_eq_spot_formula_witness :
    ∃ c pt, calculate_buy_cost 30 1000000000 1000000000 100000000 = some c ∧
      curve_point 30 1000000000 1000000000 100000000 = some pt ∧
      pt.1 = (30 + c) / (1000000000 + (1000000000 - 100000000)) :=
  curve_price_eq_spot_formula 30 1000000000 1000000000 100000000
    (by norm_num) (by norm_num) (by norm_num) (by norm_num) (by norm_num)

/-- C3, counterexample: with targetMarketCapSol = 2, virtual_sol = 1,
supply = 1 (all positive), the clamp in calculate_virtual_tokens fires and
returns 0 virtual tokens; the spot price at zero tokens sold is then
1 / (0 + 1) = 1, not the target initial price 2 / 1 = 2. -/
theorem roundtrip_counterexample :
    calculate_virtual_tokens 2 1 1 = some 0 ∧
      curve_point 1 0 1 0 = some (1, 0, 0) ∧ (1 : ℚ) ≠ 2 / 1 := by
  refine ⟨?_, ?_, by norm_num⟩
  · simp only [calculate_virtual_tokens, if_neg (by norm_num : (1 : ℚ) ≠ 0)]
    norm_num
  · rw [curve_point_some 1 0 1 0 (by norm_num)]
    norm_num

/-- C3 as amended: whenever the clamp is inactive, i.e.
targetMarketCapSol ≤ virtual_sol (with all inputs positive), solving for
virtual tokens and then taking the spot price at zero tokens sold
reproduces the target initial price targetMarketCapSol / supply exactly
over the rationals. -/
theorem virtual_tokens_roundtrip (market_cap_sol virtual_sol supply : ℚ)
    (hmc : 0 < market_cap_sol) (hvs : 0 < virtual_sol) (hs : 0 < supply)
    (hle : market_cap_sol ≤ virtual_sol) :
    ∀ vt, calculate_virtual_tokens market_cap_sol virtual_sol supply = some vt →
      ∃ pt, curve_point virtual_sol vt supply 0 = some pt ∧
        pt.1 = market_cap_sol / supply := by
  intro vt hvt
  rw [(virtual_tokens_closed_form market_cap_sol virtual_sol supply hmc hvs hs).1]
    at hvt
  obtain rfl := Option.some.inj hvt
  have hraw : supply ≤ virtual_sol * supply / market_cap_sol := by
    rw [le_div_iff₀ hmc]
    nlinarith
  have hmax : max 0 (virtual_sol * supply / market_cap_sol - supply) =
      virtual_sol * supply / market_cap_sol - supply :=
    max_eq_right (by linarith)
  rw [hmax]
  have hden : virtual_sol * supply / market_cap_sol - supply + (supply - 0) =
      virtual_sol * supply / market_cap_sol := by ring
  have hdpos : 0 < virtual_sol * supply / market_cap_sol := by positivity
  refine ⟨_, curve_point_some _ _ _ _ (by rw [hden]; exact hdpos.ne'), ?_⟩
  rw [hden]
  field_simp
  ring

/-- Witness for C3 as amended, at targetMarketCapSol = 23, virtual_sol = 200,
supply = 10^9 (the Micro Launch preset at 200 USD per SOL), where the solved
virtual-token value is 177000000000 / 23. -/
theorem virtual_tokens_roundtrip_witness :
    ∃ pt, curve_point 200 (177000000000 / 23) 1000000000 0 = some pt ∧
      pt.1 = 23 / 1000000000 :=
  virtual_tokens_roundtrip 23 200 1000000000 (by norm_num) (by norm_num)
    (by norm_num) (by norm_num) (177000000000 / 23)
    (by
      simp only [calculate_virtual_tokens, if_neg
        (by norm_num : (1000000000 : ℚ) ≠ 0)]
      norm_num)

/-- Helper: a successful trade_step preserves the constant product
(vsol + total_sol) * (vtok + remaining). -/
lemma trade_step_preserves (vsol vtok r t a : ℚ) (st' : ℚ × ℚ)
    (h : trade_step vsol vtok (r, t) a = some st') :
    (vsol + st'.2) * (vtok + st'.1) = (vsol + t) * (vtok + r) := by
  simp only [trade_step] at h
  split at h
  · exact absurd h (by simp)
  · rename_i hns
    obtain rfl := Option.some.inj h
    simp only
    have : vtok + (r - (vtok + r - (vsol + t) * (vtok + r) / (vsol + t + a))) =
        (vsol + t) * (vtok + r) / (vsol + t + a) := by ring
    rw [this]
    field_simp
    ring

/-- Helper: starting from any state with nonnegative collected SOL, running
any list of positive buyer budgets succeeds and preserves the constant
product. -/
lemma runTrades_aux (vsol vtok : ℚ) (hvs : 0 < vsol) :
    ∀ (amounts : List ℚ) (st : ℚ × ℚ), 0 ≤ st.2 →
      (∀ a ∈ amounts, 0 < a) →
      ∃ st', amounts.foldlM (trade_step vsol vtok) st = some st' ∧
        (vsol + st'.2) * (vtok + st'.1) = (vsol + st.2) * (vtok + st.1) ∧
        0 ≤ st'.2 := by
  intro amounts
  induction amounts with
  | nil =>
    intro st hst _
    exact ⟨st, rfl, rfl, hst⟩
  | cons a as ih =>
    intro st hst hpos
    have ha : 0 < a := hpos a (List.mem_cons_self a as)
    have hns : vsol + st.2 + a ≠ 0 := by positivity
    have hstep : trade_step vsol vtok st a =
        some (st.1 - (vtok + st.1 - (vsol + st.2) * (vtok + st.1) /
          (vsol + st.2 + a)), st.2 + a) := by
      simp only [trade_step, if_neg hns]
    have hpres := trade_step_preserves vsol vtok st.1 st.2 a _ hstep
    obtain ⟨st', hrun, hinv, hnn⟩ := ih
      (st.1 - (vtok + st.1 - (vsol + st.2) * (vtok + st.1) /
        (vsol + st.2 + a)), st.2 + a)
      (by simp only; linarith)
      (fun x hx => hpos x (List.mem_cons_of_mem a hx))
    refine ⟨st', ?_, ?_, hnn⟩
    · rw [List.foldlM_cons, hstep]
      exact hrun
    · rw [hinv]
      simpa using hpres

/-- C9: in the buyer loop of simulate_trading_scenario, the product
(vsol + total_sol) * (vtok + remaining) is invariant: every successful step
leaves it unchanged, and running any sequence of positive budgets from the
initial state (remaining = supply, total_sol = 0) succeeds and keeps it
equal to the initial k = vsol * (vtok + supply). -/
theorem trading_constant_product_invariant (vsol vtok supply : ℚ)
    (amounts : List ℚ) (hvs : 0 < vsol) (hpos : ∀ a ∈ amounts, 0 < a) :
    (∀ (r t a : ℚ) (st' : ℚ × ℚ), trade_step vsol vtok (r, t) a = some st' →
      (vsol + st'.2) * (vtok + st'.1) = (vsol + t) * (vtok + r)) ∧
    ∃ st', runTrades vsol vtok supply amounts = some st' ∧
      (vsol + st'.2) * (vtok + st'.1) = vsol * (vtok + supply) := by
  refine ⟨fun r t a st' h => trade_step_preserves vsol vtok r t a st' h, ?_⟩
  obtain ⟨st', hrun, hinv, _⟩ :=
    runTrades_aux vsol vtok hvs amounts (supply, 0) le_rfl hpos
  exact ⟨st', hrun, by simpa using hinv⟩

/-- Witness for C9 with vsol = 30, vtok = 5, supply = 100 and two buyers
spending 1 and 2 SOL. -/
theorem trading_constant_product_invariant_witness :
    ∃ st', runTrades 30 5 100 [1, 2] = some st' ∧
      (30 + st'.2) * (5 + st'.1) = 30 * (5 + 100) :=
  (trading_constant_product_invariant 30 5 100 [1, 2] (by norm_num)
    (by decide)).2

/-- Helper: the value of the whale computation when its divisor is nonzero. -/
lemma whale_tokens_bought_some (vsol vtok supply budget : ℚ)
    (h : vsol + budget ≠ 0) :
    whale_tokens_bought vsol vtok supply budget =
      some ((vtok + supply) - vsol * (vtok + supply) / (vsol + budget)) := by
  simp only [whale_tokens_bought, if_neg h]

/-- C10: the budget-to-tokens computation in whale_attack_analysis inverts
calculate_buy_cost: for positive inputs, buying the tokens it reports costs
exactly the whale's budget, over the rationals. -/
theorem whale_tokens_inverse (vsol vtok supply budget : ℚ)
    (hvs : 0 < vsol) (hvt : 0 < vtok) (hs : 0 < supply) (hb : 0 < budget) :
    ∃ b, whale_tokens_bought vsol vtok supply budget = some b ∧
      calculate_buy_cost vsol vtok supply b = some budget := by
  have hns : (0 : ℚ) < vsol + budget := by linarith
  have hk : 0 < vsol * (vtok + supply) := by positivity
  have hq : 0 < vsol * (vtok + supply) / (vsol + budget) := div_pos hk hns
  refine ⟨_, whale_tokens_bought_some vsol vtok supply budget hns.ne', ?_⟩
  have hden : vtok + (supply - ((vtok + supply) -
      vsol * (vtok + supply) / (vsol + budget))) =
      vsol * (vtok + supply) / (vsol + budget) := by ring
  rw [buy_cost_some _ _ _ _ (by rw [hden]; exact hq.ne')]
  rw [hden, div_div_eq_mul_div, mul_div_cancel_left₀ _ hk.ne']
  congr 1
  ring

/-- Witness for C10 at vsol = 30, vtok = supply = 10^9, budget = 100. -/
theorem whale_tokens_inverse_witness :
    ∃ b, whale_tokens_bought 30 1000000000 1000000000 100 = some b ∧
      calculate_buy_cost 30 1000000000 1000000000 b = some 100 :=
  whale_tokens_inverse 30 1000000000 1000000000 100 (by norm_num)
    (by norm_num) (by norm_num) (by norm_num)

end Fundsly
